import Mathlib

/-!
Shallow embedding of the plant-disease inference service
(`app/services/ml_service.py` of the plant_doctor_api repository),
together with theorems settling the specification claims about it.

Modelling conventions:
* float values of the source are modelled as rationals (`ℚ`);
* a PIL image is modelled by its decoded content: dimensions, colour
  mode, the PIL format tag, and an RGB pixel map with byte-valued
  channels (`Fin 256`), so `Image.convert` / `Image.resize` act on that
  content; LANCZOS resampling is modelled abstractly as a byte-valued
  resampling — every verified property depends only on the output shape
  and the byte range of the resampled pixels;
* raw input bytes are modelled by their decode result (`Option` of an
  image): `Image.open` raising on undecodable bytes is the `none` case;
* `np.random.dirichlet` is modelled as an oracle function passed to the
  orchestrator; the numpy guarantee that a length-5 parameter vector
  yields a length-5 sample is baked into its type `List ℚ → Fin 5 → ℚ`;
* raised exceptions are modelled with `Except String`.
-/

namespace PlantDoctor

/-- Python list/char prefix test used to build the substring test. -/
def listPrefixOf : List Char → List Char → Bool
  | [], _ => true
  | _ :: _, [] => false
  | a :: as, b :: bs => a == b && listPrefixOf as bs

/-- Python substring containment on character lists (`needle in haystack`). -/
def listSubstrOf (needle : List Char) : List Char → Bool
  | [] => listPrefixOf needle []
  | b :: bs => listPrefixOf needle (b :: bs) || listSubstrOf needle bs

/-- Python `needle in haystack` on strings. -/
def strIn (needle haystack : String) : Bool :=
  listSubstrOf needle.data haystack.data

/-- Python `str.lower` (the labels and keys of this service are ASCII). -/
def pyLower (s : String) : String :=
  ⟨s.data.map Char.toLower⟩

/-- Python `str.capitalize`: first character uppercased, rest lowercased. -/
def pyCapitalize (s : String) : String :=
  match s.data with
  | [] => ⟨[]⟩
  | c :: cs => ⟨c.toUpper :: cs.map Char.toLower⟩

/-- A recommendation record (`RECOMMENDATIONS` values in the source). -/
structure Reco where
  traitement : String
  prevention : String
  urgence : String
deriving DecidableEq

def recoRouille : Reco :=
  { traitement := "Appliquez un fongicide à base de soufre. Traitement recommandé tôt le matin."
    prevention := "Évitez les densités de plantation trop élevées. Pratiquez la rotation des cultures."
    urgence := "medium" }

def recoMildiou : Reco :=
  { traitement := "Utilisez un fongicide systémique. Évitez les arrosages par aspersion."
    prevention := "Assurez une bonne circulation d'air. Utilisez des variétés résistantes."
    urgence := "high" }

def recoCharbon : Reco :=
  { traitement := "Traitement fongicide préventif. Brûlez les plants atteints."
    prevention := "Utilisez des semences saines. Pratiquez la rotation sur 3 ans."
    urgence := "high" }

def recoCercosporiose : Reco :=
  { traitement := "Fongicides à base de triazoles. Répétez le traitement après pluie."
    prevention := "Évitez l'humidité prolongée sur les feuilles."
    urgence := "medium" }

def recoPyrale : Reco :=
  { traitement := "Traitement insecticide au stade larvaire. Destruction des résidus."
    prevention := "Labour profond après récolte. Surveillance régulière."
    urgence := "high" }

def recoPourriture : Reco :=
  { traitement := "Fongicide préventif. Drainage amélioré du sol."
    prevention := "Évitez l'excès d'eau. Rotation avec légumineuses."
    urgence := "medium" }

def recoBacteriose : Reco :=
  { traitement := "Cuivre à faible dose. Éliminez les plants infectés."
    prevention := "Semences certifiées. Évitez les blessures aux plants."
    urgence := "high" }

def recoAlternariose : Reco :=
  { traitement := "Fongicide spécifique. Application préventive recommandée."
    prevention := "Rotation culturale. Élimination des débris végétaux."
    urgence := "medium" }

def recoAnthracnose : Reco :=
  { traitement := "Fongicide systémique. Traitement des semences."
    prevention := "Variétés résistantes. Rotation sur 2-3 ans."
    urgence := "medium" }

def recoSain : Reco :=
  { traitement := "Aucun traitement nécessaire. Continuez les bonnes pratiques."
    prevention := "Maintenez la surveillance régulière. Fertilisation équilibrée."
    urgence := "low" }

/-- The generic fallback record returned by `_get_recommendations` when no
key matches. -/
def genericReco : Reco :=
  { traitement := "Surveillance recommandée. Consultez un agronome local."
    prevention := "Pratiques culturales adaptées au climat burkinabè."
    urgence := "low" }

/-- `MLService.RECOMMENDATIONS`, as an association list in the dict's
insertion order. -/
def RECOMMENDATIONS : List (String × Reco) :=
  [("rouille", recoRouille),
   ("mildiou", recoMildiou),
   ("charbon", recoCharbon),
   ("cercosporiose", recoCercosporiose),
   ("pyrale", recoPyrale),
   ("pourriture", recoPourriture),
   ("bacteriose", recoBacteriose),
   ("alternariose", recoAlternariose),
   ("anthracnose", recoAnthracnose),
   ("sain", recoSain)]

/-- `MLService.MALADIES_BURKINA`, in the dict's insertion order. -/
def MALADIES_BURKINA : List (String × List String) :=
  [("mil", ["sain", "rouille", "charbon", "cercosporiose"]),
   ("mais", ["sain", "mildiou", "pyrale", "charbon"]),
   ("coton", ["sain", "pourriture", "bacteriose", "alternariose"]),
   ("sorgho", ["sain", "rouille", "charbon", "anthracnose"])]

/-- The label the source builds for a (crop, disease) pair:
`f"{maladie.capitalize()} ({plante.capitalize()})"`. -/
def labelOf (p : String × String) : String :=
  pyCapitalize p.2 ++ " (" ++ pyCapitalize p.1 ++ ")"

/-- The (crop, disease) pairs in the enumeration order of
`_get_all_diseases_flat`. -/
def flatPairs : List (String × String) :=
  MALADIES_BURKINA.flatMap (fun pm => pm.2.map (fun m => (pm.1, m)))

/-- `MLService._get_all_diseases_flat`. -/
def getAllDiseasesFlat : List String :=
  flatPairs.map labelOf

/-- `MLService._get_recommendations`: lowercase the label, return the record
of the first `RECOMMENDATIONS` key contained in it, else the generic
fallback record.  (The `lru_cache` decorator is semantically transparent.) -/
def getRecommendations (disease : String) : Reco :=
  let disease_lower := pyLower disease
  match RECOMMENDATIONS.find? (fun kv => strIn kv.1 disease_lower) with
  | some kv => kv.2
  | none => genericReco

/-- First-substring-match chain, written the way the spec describes the
lookup (iterate the key/record pairs in declared order, the first key
that is a substring of the lowercased label wins, else generic). -/
def recSpecChain : List (String × Reco) → String → Reco
  | [], _ => genericReco
  | (k, r) :: rest, dl => if strIn k dl then r else recSpecChain rest dl

/-- `recommendation_for` as worded by the spec, to be compared with the
source's `getRecommendations`. -/
def recommendationForSpec (label : String) : Reco :=
  recSpecChain RECOMMENDATIONS (pyLower label)

/-- PIL colour modes relevant to the service. -/
inductive ImageMode
  | RGB
  | L
  | RGBA
  | P
deriving DecidableEq

/-- A decoded PIL image: dimensions, mode, format tag, and its RGB
rendering with byte-valued channels. -/
structure PILImage where
  width : Nat
  height : Nat
  mode : ImageMode
  imgFormat : Option String
  pixel : Nat → Nat → Fin 3 → Fin 256

/-- Raw input bytes, modelled by their decode result: `Image.open`
raising on undecodable bytes is the `none` case. -/
structure ImageBytes where
  decoded : Option PILImage

/-- `MLService.MAX_IMAGE_SIZE`. -/
def MAX_IMAGE_SIZE : Nat := 2048

/-- `image.convert('RGB')`: the RGB rendering is already part of the
model, so conversion only changes the mode tag. -/
def convertRGB (img : PILImage) : PILImage :=
  { img with mode := ImageMode.RGB }

/-- `image.resize((w, h), LANCZOS)`, modelled as a byte-valued resampling
of the source pixels (the verified properties depend only on the output
shape and the byte range, which any PIL resampling filter satisfies). -/
def resizeImage (img : PILImage) (w h : Nat) : PILImage :=
  { width := w
    height := h
    mode := img.mode
    imgFormat := img.imgFormat
    pixel := fun i j c => img.pixel (i * img.width / w) (j * img.height / h) c }

/-- The 224 x 224 x 3 tensor handed to the classifier backend. -/
def Tensor : Type := Fin 224 → Fin 224 → Fin 3 → ℚ

/-- `MLService._preprocess_image`: decode, enforce the 2048 px ceiling,
convert to RGB, resize to 224 x 224, normalize to [0,1].  Every raised
exception reaches the caller as the `ValueError("Image invalide: ...")`
of the enclosing handler. -/
def preprocessImage (image_data : ImageBytes) : Except String Tensor :=
  match image_data.decoded with
  | none => Except.error "Image invalide: cannot identify image file"
  | some image =>
    if image.width > MAX_IMAGE_SIZE ∨ image.height > MAX_IMAGE_SIZE then
      Except.error "Image invalide: Image trop grande (max: 2048px)"
    else
      let image1 := if image.mode ≠ ImageMode.RGB then convertRGB image else image
      let image2 := resizeImage image1 224 224
      Except.ok (fun i j c => ((image2.pixel i j c : Fin 256).val : ℚ) / 255)

/-- `np.argmax` on the tail of a list, carrying the best index, best value
and current index; a strict comparison keeps the first maximum. -/
def argmaxFrom : Nat → ℚ → Nat → List ℚ → Nat
  | bi, _, _, [] => bi
  | bi, bv, i, x :: xs =>
    if bv < x then argmaxFrom i x (i + 1) xs else argmaxFrom bi bv (i + 1) xs

/-- `np.argmax`: index of the first maximum (0 on the empty list, where
numpy would raise; callers guard non-emptiness). -/
def argmaxList : List ℚ → Nat
  | [] => 0
  | x :: xs => argmaxFrom 0 x 1 xs

/-- The metadata dict of a `PredictionResult`; each production path fills
its own subset of the keys. -/
structure Metadata where
  analysis_type : String
  width : Option Nat := none
  height : Option Nat := none
  imgFormat : Option (Option String) := none
  model_version : Option String := none
  avg_red : Option ℚ := none
  avg_green : Option ℚ := none
  avg_blue : Option ℚ := none
  error : Option String := none
deriving DecidableEq

/-- The structured prediction result returned by the service. -/
structure PredictionResult where
  disease : String
  confidence : ℚ
  all_predictions : List (String × ℚ)
  recommendations : Reco
  metadata : Metadata
deriving DecidableEq

/-- `MLService._real_analysis`.  `predict` stands for
`self.model.predict(image_batch)[0]`: the per-class output row of the
loaded model, or the exception the call raises.  `np.argmax` of an empty
row raises; `predicted_index` is in range whenever the row is non-empty,
so the `getD` default is never read on that path. -/
def realAnalysis (imageArray : Tensor) (originalData : ImageBytes)
    (predict : Tensor → Except String (List ℚ)) : Except String PredictionResult :=
  match predict imageArray with
  | Except.error e => Except.error e
  | Except.ok preds =>
    match preds with
    | [] => Except.error "attempt to get argmax of an empty sequence"
    | _ :: _ =>
      let predicted_index := argmaxList preds
      let confidence := preds.getD predicted_index 0
      let all_diseases := getAllDiseasesFlat
      let predicted_disease :=
        if predicted_index < all_diseases.length then
          all_diseases.getD predicted_index "Inconnu"
        else "Inconnu"
      match originalData.decoded with
      | none => Except.error "cannot identify image file"
      | some img =>
        Except.ok
          { disease := predicted_disease
            confidence := confidence
            all_predictions := all_diseases.zip preds
            recommendations := getRecommendations predicted_disease
            metadata :=
              { analysis_type := "REAL_ML"
                width := some img.width
                height := some img.height
                imgFormat := some img.imgFormat
                model_version := some "1.0" } }

/-- `MLService._simulated_analysis`: per-channel means, dominance ratios
with the 1e-6 guard, one of three prior profiles, a Dirichlet draw
(profile x 10) through the oracle, argmax over the 5 canonical labels. -/
def simulatedAnalysis (imageArray : Tensor)
    (dirichlet : List ℚ → Fin 5 → ℚ) : PredictionResult :=
  let avgColor : Fin 3 → ℚ :=
    fun c => (∑ i : Fin 224, ∑ j : Fin 224, imageArray i j c) / (224 * 224)
  let colorSum := avgColor 0 + avgColor 1 + avgColor 2
  let red_ratio := avgColor 0 / (colorSum + 1 / 1000000)
  let green_ratio := avgColor 1 / (colorSum + 1 / 1000000)
  let base_probs : List ℚ :=
    if red_ratio > 2/5 then [1/10, 1/2, 3/20, 1/10, 3/20]
    else if green_ratio > 2/5 then [3/5, 3/20, 1/10, 1/20, 1/10]
    else [1/5, 1/4, 1/5, 3/20, 1/5]
  let confidence := dirichlet (base_probs.map (fun p => p * 10))
  let confList := [confidence 0, confidence 1, confidence 2, confidence 3, confidence 4]
  let predicted_index := argmaxList confList
  let diseases := ["Plante Sain", "Rouille", "Mildiou", "Charbon", "Cercosporiose"]
  let predicted_disease := diseases.getD predicted_index "Inconnu"
  { disease := predicted_disease
    confidence := confList.getD predicted_index 0
    all_predictions := diseases.zip confList
    recommendations := getRecommendations predicted_disease
    metadata :=
      { analysis_type := "SIMULATION"
        avg_red := some (avgColor 0)
        avg_green := some (avgColor 1)
        avg_blue := some (avgColor 2) } }

/-- `MLService._simulated_analysis_fallback`: the fixed last-resort
result (the argument is ignored, as in the source). -/
def simulatedAnalysisFallback (image_data : ImageBytes) : PredictionResult :=
  { disease := "Analyse en attente"
    confidence := 1/2
    all_predictions := [("Analyse en attente", 1)]
    recommendations := getRecommendations "sain"
    metadata := { analysis_type := "FALLBACK", error := some "true" } }

/-- The service state consulted by `analyze_plant_image`:
`self.model_loaded` and `self.model` (the latter through its `predict`
row, `None` when no model object is set). -/
structure MLServiceState where
  model_loaded : Bool
  model : Option (Tensor → Except String (List ℚ))

/-- The body of the `try` block of `analyze_plant_image`: preprocess,
then real analysis when `self.model_loaded and self.model`, else
simulation. -/
def analyzeAttempt (svc : MLServiceState) (image_data : ImageBytes)
    (dirichlet : List ℚ → Fin 5 → ℚ) : Except String PredictionResult :=
  match preprocessImage image_data with
  | Except.error e => Except.error e
  | Except.ok processed =>
    match svc.model_loaded, svc.model with
    | true, some m => realAnalysis processed image_data m
    | true, none => Except.ok (simulatedAnalysis processed dirichlet)
    | false, _ => Except.ok (simulatedAnalysis processed dirichlet)

/-- `MLService.analyze_plant_image`: the catch-all handler turns any
exception of the attempt into the last-resort fallback result. -/
def analyzePlantImage (svc : MLServiceState) (image_data : ImageBytes)
    (dirichlet : List ℚ → Fin 5 → ℚ) : Except String PredictionResult :=
  match analyzeAttempt svc image_data dirichlet with
  | Except.ok r => Except.ok r
  | Except.error _ => Except.ok (simulatedAnalysisFallback image_data)

/-- Record-of-key lookup in `RECOMMENDATIONS` (used to state the
round-trip claim about the flattened taxonomy). -/
def recoOfKey (k : String) : Option Reco :=
  (RECOMMENDATIONS.find? (fun kv => kv.1 == k)).map Prod.snd

/-- The tensor `_preprocess_image` produces for an in-bounds decoded
image (its `let`-chain, written out). -/
def normalizedOf (img : PILImage) : Tensor :=
  fun i j c =>
    (((resizeImage (if img.mode ≠ ImageMode.RGB then convertRGB img else img)
        224 224).pixel i j c : Fin 256).val : ℚ) / 255

/-- A small decodable RGB test image (10 x 8, all-black). -/
def testImage : PILImage :=
  { width := 10
    height := 8
    mode := ImageMode.RGB
    imgFormat := some "PNG"
    pixel := fun _ _ _ => (0 : Fin 256) }

/-- Bytes decoding to `testImage`. -/
def goodData : ImageBytes := ⟨some testImage⟩

/-- Undecodable bytes. -/
def badData : ImageBytes := ⟨none⟩

/-- A decodable image over the 2048 px ceiling. -/
def bigImage : PILImage := { testImage with width := 3000 }

/-- Bytes decoding to `bigImage`. -/
def bigData : ImageBytes := ⟨some bigImage⟩

/-- Backend-unavailable service state. -/
def svcSim : MLServiceState := ⟨false, none⟩

/-- A predict row that raises on every call. -/
def boomPredict : Tensor → Except String (List ℚ) := fun _ => Except.error "boom"

/-- Backend-available service state whose predict call raises. -/
def svcBoom : MLServiceState := ⟨true, some boomPredict⟩

/-- A 17-entry model output row (one more class than the 16-label
taxonomy), peaking at index 16. -/
def vec17 : List ℚ := [0, 0, 0, 0, 0, 0, 0, 0, 0, 0, 0, 0, 0, 0, 0, 0, 1]

/-- A predict row returning `vec17` on every call. -/
def predict17 : Tensor → Except String (List ℚ) := fun _ => Except.ok vec17

/-- Backend-available service state with the 17-class model. -/
def svc17 : MLServiceState := ⟨true, some predict17⟩

/-- A concrete Dirichlet oracle (the uniform vector). -/
def drch0 : List ℚ → Fin 5 → ℚ := fun _ _ => 1/5

/-- The tensor `_preprocess_image` produces on `goodData`. -/
def goodTensor : Tensor := normalizedOf testImage

end PlantDoctor

namespace PlantDoctor

/-- Unfolding equation for `getRecommendations`. -/
theorem getRecommendations_eq (s : String) :
    getRecommendations s =
      match RECOMMENDATIONS.find? (fun kv => strIn kv.1 (pyLower s)) with
      | some kv => kv.2
      | none => genericReco := rfl

/-- `List.getD` returns a list element or the default. -/
theorem getD_mem_or_eq {α : Type} (l : List α) (n : Nat) (d : α) :
    l.getD n d ∈ l ∨ l.getD n d = d := by
  induction l generalizing n with
  | nil => right; rfl
  | cons x xs ih =>
    cases n with
    | zero => left; simp [List.getD]
    | succ m =>
      rcases ih m with h | h
      · left
        simpa [List.getD] using List.mem_cons_of_mem x (by simpa [List.getD] using h)
      · right
        simpa [List.getD] using h

/-- The source's dict-scan lookup agrees with the spec's
first-substring-match chain, over any association list. -/
theorem find?_eq_chain (l : List (String × Reco)) (dl : String) :
    (match l.find? (fun kv => strIn kv.1 dl) with
     | some kv => kv.2
     | none => genericReco) = recSpecChain l dl := by
  induction l with
  | nil => rfl
  | cons a rest ih =>
    obtain ⟨k, r⟩ := a
    cases hk : strIn k dl with
    | true => simp [List.find?, hk, recSpecChain]
    | false => simp [List.find?, hk, recSpecChain, ih]

/-- Every lookup result is a declared record or the generic fallback. -/
theorem getRecommendations_mem (s : String) :
    getRecommendations s ∈ RECOMMENDATIONS.map Prod.snd ∨
      getRecommendations s = genericReco := by
  rw [getRecommendations_eq]
  cases h : RECOMMENDATIONS.find? (fun kv => strIn kv.1 (pyLower s)) with
  | none => right; rfl
  | some kv =>
    left
    exact List.mem_map_of_mem Prod.snd (List.mem_of_find?_eq_some h)

/-- The lookup on "sain" yields the "sain" record. -/
theorem getRecommendations_sain : getRecommendations "sain" = recoSain := by decide

/-- The reported fallback confidence differs from the single vector
entry of the fallback prediction map. -/
theorem half_ne_one : (1/2 : ℚ) ≠ (1 : ℚ) := by norm_num

/-- A failing preprocessing step makes the orchestrator return the fixed
fallback result (the catch-all handler of `analyze_plant_image`). -/
theorem analyze_of_preprocess_error (svc : MLServiceState) (image_data : ImageBytes)
    (dirichlet : List ℚ → Fin 5 → ℚ) (e : String)
    (hpre : preprocessImage image_data = Except.error e) :
    analyzePlantImage svc image_data dirichlet
      = Except.ok (simulatedAnalysisFallback image_data) := by
  have hatt : analyzeAttempt svc image_data dirichlet = Except.error e := by
    simp only [analyzeAttempt, hpre]
  simp only [analyzePlantImage, hatt]

/-- C1 counterexample: on undecodable input bytes the orchestrator does
not propagate the `InvalidImage` `ValueError` to the caller: the call
returns a normal (`Except.ok`) fallback result, so no error at all
crosses the `analyze` boundary on this input. -/
theorem claim_C1_cex :
    analyzePlantImage svcSim badData drch0
      = Except.ok (simulatedAnalysisFallback badData) := rfl

/-- C1 (amended): whenever preprocessing fails — undecodable bytes or an
image whose width or height exceeds 2048 px — `analyze_plant_image` does
not propagate the `InvalidImage` `ValueError`: its catch-all handler
absorbs it and returns the fixed fallback result, so no error ever
crosses the `analyze` boundary on such inputs. -/
theorem claim_C1_thm (svc : MLServiceState) (image_data : ImageBytes)
    (dirichlet : List ℚ → Fin 5 → ℚ) (e : String)
    (hpre : preprocessImage image_data = Except.error e) :
    analyzePlantImage svc image_data dirichlet
      = Except.ok (simulatedAnalysisFallback image_data) := by
  have hatt : analyzeAttempt svc image_data dirichlet = Except.error e := by
    simp only [analyzeAttempt, hpre]
  simp only [analyzePlantImage, hatt]

/-- C1 witness: the amended statement applied to concrete undecodable
bytes, the backend unavailable. -/
theorem claim_C1_witness :
    preprocessImage badData = Except.error "Image invalide: cannot identify image file" ∧
      analyzePlantImage svcSim badData drch0
        = Except.ok (simulatedAnalysisFallback badData) :=
  ⟨rfl, claim_C1_thm svcSim badData drch0 "Image invalide: cannot identify image file" rfl⟩

/-- C3: for every input that decodes to an image within the 2048 px
ceiling, `analyze_plant_image` terminates normally and never raises —
the result is always `Except.ok` — in every backend configuration
(model loaded or not). -/
theorem claim_C3 (svc : MLServiceState) (image_data : ImageBytes)
    (dirichlet : List ℚ → Fin 5 → ℚ) (img : PILImage)
    (hdec : image_data.decoded = some img)
    (hw : img.width ≤ MAX_IMAGE_SIZE) (hh : img.height ≤ MAX_IMAGE_SIZE) :
    ∃ r, analyzePlantImage svc image_data dirichlet = Except.ok r := by
  unfold analyzePlantImage
  cases h : analyzeAttempt svc image_data dirichlet with
  | ok r => exact ⟨r, rfl⟩
  | error e => exact ⟨simulatedAnalysisFallback image_data, rfl⟩

/-- C3 witness: a concrete in-bounds image, backend unavailable. -/
theorem claim_C3_witness :
    goodData.decoded = some testImage ∧ testImage.width ≤ MAX_IMAGE_SIZE ∧
      testImage.height ≤ MAX_IMAGE_SIZE ∧
      ∃ r, analyzePlantImage svcSim goodData drch0 = Except.ok r :=
  ⟨rfl, by decide, by decide,
    claim_C3 svcSim goodData drch0 testImage rfl (by decide) (by decide)⟩

/-- C10: on every input whose preprocessing fails (undecodable bytes or
an image over the 2048 px ceiling), `analyze_plant_image` does not raise
but returns the fixed terminal result: disease "Analyse en attente",
confidence 0.5, the single-entry prediction map at 1.0 (so the reported
confidence differs from the vector's only entry), the "sain"
recommendation record, and metadata analysis_type "FALLBACK". -/
theorem claim_C10_thm (svc : MLServiceState) (image_data : ImageBytes)
    (dirichlet : List ℚ → Fin 5 → ℚ) (e : String)
    (hpre : preprocessImage image_data = Except.error e) :
    ∃ r, analyzePlantImage svc image_data dirichlet = Except.ok r ∧
      r.disease = "Analyse en attente" ∧ r.confidence = 1/2 ∧
      r.all_predictions = [("Analyse en attente", 1)] ∧
      r.recommendations = recoSain ∧
      r.metadata.analysis_type = "FALLBACK" ∧
      r.confidence ≠ (r.all_predictions.getD 0 ("", 0)).2 :=
  ⟨simulatedAnalysisFallback image_data,
    analyze_of_preprocess_error svc image_data dirichlet e hpre,
    rfl, rfl, rfl, getRecommendations_sain, rfl, half_ne_one⟩

/-- C10 witness: concrete undecodable bytes, backend unavailable. -/
theorem claim_C10_witness :
    preprocessImage badData = Except.error "Image invalide: cannot identify image file" ∧
      ∃ r, analyzePlantImage svcSim badData drch0 = Except.ok r ∧
        r.disease = "Analyse en attente" ∧ r.confidence = 1/2 ∧
        r.all_predictions = [("Analyse en attente", 1)] ∧
        r.recommendations = recoSain ∧
        r.metadata.analysis_type = "FALLBACK" ∧
        r.confidence ≠ (r.all_predictions.getD 0 ("", 0)).2 :=
  ⟨rfl, claim_C10_thm svcSim badData drch0 "Image invalide: cannot identify image file" rfl⟩

/-- C5: `_get_recommendations` lowercases the label, scans the
`RECOMMENDATIONS` keys in their declared insertion order (rouille,
mildiou, charbon, cercosporiose, pyrale, pourriture, bacteriose,
alternariose, anthracnose, sain), and returns the record of the first
key occurring as a substring, else the generic low-urgency fallback;
in particular "Rouille (Mil)" resolves to the rouille record and
"Unknown Disease" to the generic fallback record. -/
theorem claim_C5 :
    RECOMMENDATIONS.map Prod.fst =
      ["rouille", "mildiou", "charbon", "cercosporiose", "pyrale",
       "pourriture", "bacteriose", "alternariose", "anthracnose", "sain"] ∧
    (∀ label, getRecommendations label = recommendationForSpec label) ∧
    getRecommendations "Rouille (Mil)" = recoRouille ∧
    getRecommendations "Unknown Disease" = genericReco ∧
    genericReco.urgence = "low" :=
  ⟨by decide, fun label => find?_eq_chain RECOMMENDATIONS (pyLower label),
    by decide, by decide, rfl⟩

/-- C6 counterexample: the last-resort fallback result carries the
"sain" record, not the generic low-urgency fallback record the claim
names (their treatment texts differ). -/
theorem claim_C6_cex :
    (simulatedAnalysisFallback badData).recommendations ≠ genericReco := by decide

/-- C6 (amended): when the fallback path runs, the returned result is
the fixed degenerate one — neutral label "Analyse en attente",
confidence exactly 0.5, metadata source FALLBACK — and its
recommendation record is the "sain" record (urgency low), which is the
record `_get_recommendations("sain")` returns, not the generic fallback
record. -/
theorem claim_C6_thm (image_data : ImageBytes) :
    simulatedAnalysisFallback image_data =
      { disease := "Analyse en attente"
        confidence := 1/2
        all_predictions := [("Analyse en attente", 1)]
        recommendations := recoSain
        metadata := { analysis_type := "FALLBACK", error := some "true" } } ∧
    recoSain.urgence = "low" ∧ getRecommendations "sain" = recoSain ∧
    recoSain ≠ genericReco := by
  refine ⟨?_, rfl, getRecommendations_sain, by decide⟩
  simp only [simulatedAnalysisFallback, getRecommendations_sain]

/-- C9: the flattened taxonomy lists the 16 labels in the fixed crop
order mil, mais, coton, sorgho with each crop's declared disease order,
the i-th label is built from the i-th (crop, disease) pair, and the
recommendation lookup of that label returns exactly the
`RECOMMENDATIONS` record of the originating disease key (round-trip). -/
theorem claim_C9 :
    getAllDiseasesFlat =
      ["Sain (Mil)", "Rouille (Mil)", "Charbon (Mil)", "Cercosporiose (Mil)",
       "Sain (Mais)", "Mildiou (Mais)", "Pyrale (Mais)", "Charbon (Mais)",
       "Sain (Coton)", "Pourriture (Coton)", "Bacteriose (Coton)", "Alternariose (Coton)",
       "Sain (Sorgho)", "Rouille (Sorgho)", "Charbon (Sorgho)", "Anthracnose (Sorgho)"] ∧
    ∀ i : Fin flatPairs.length,
      getAllDiseasesFlat.getD i.val "" = labelOf (flatPairs.getD i.val ("", "")) ∧
      some (getRecommendations (getAllDiseasesFlat.getD i.val ""))
        = recoOfKey (flatPairs.getD i.val ("", "")).2 := by
  constructor
  · decide
  · decide

/-- A byte-valued channel divided by 255 lies in [0,1]. -/
theorem byte_div_mem_unit (p : Fin 256) :
    0 ≤ ((p.val : ℚ) / 255) ∧ ((p.val : ℚ) / 255) ≤ 1 := by
  constructor
  · exact div_nonneg (Nat.cast_nonneg _) (by norm_num)
  · rw [div_le_one (by norm_num : (0:ℚ) < 255)]
    have h : (p.val : ℚ) ≤ 255 := by exact_mod_cast Nat.le_of_lt_succ p.isLt
    exact h

/-- `List.getD` into a 5-entry vector of [0,1] values stays in [0,1]
(the 0 default is also in range). -/
theorem getD_five_bounds (f : Fin 5 → ℚ) (n : Nat)
    (hf : ∀ i, 0 ≤ f i ∧ f i ≤ 1) :
    0 ≤ ([f 0, f 1, f 2, f 3, f 4].getD n 0) ∧
      ([f 0, f 1, f 2, f 3, f 4].getD n 0) ≤ 1 := by
  rcases getD_mem_or_eq [f 0, f 1, f 2, f 3, f 4] n 0 with h | h
  · simp only [List.mem_cons, List.not_mem_nil, or_false] at h
    rcases h with h | h | h | h | h <;> rw [h] <;> exact hf _
  · rw [h]
    exact ⟨le_refl 0, by norm_num⟩

/-- The heuristic simulation's result has confidence in [0,1] (granted
the Dirichlet sample is a probability vector) and a resolvable
recommendation record. -/
theorem sim_result_bounds (processed : Tensor) (dirichlet : List ℚ → Fin 5 → ℚ)
    (hd : ∀ ps i, 0 ≤ dirichlet ps i ∧ dirichlet ps i ≤ 1) :
    (0 ≤ (simulatedAnalysis processed dirichlet).confidence ∧
      (simulatedAnalysis processed dirichlet).confidence ≤ 1) ∧
      ((simulatedAnalysis processed dirichlet).recommendations ∈
          RECOMMENDATIONS.map Prod.snd ∨
        (simulatedAnalysis processed dirichlet).recommendations = genericReco) := by
  constructor
  · exact getD_five_bounds (dirichlet _) _ (hd _)
  · exact getRecommendations_mem _

/-- C2 counterexample: with the backend loaded and its predict call
raising, `analyze` returns the fixed degenerate result tagged FALLBACK —
not a result of the heuristic fallback estimator tagged SIMULATION. -/
theorem claim_C2_cex :
    analyzePlantImage svcBoom goodData drch0
      = Except.ok (simulatedAnalysisFallback goodData) ∧
    (simulatedAnalysisFallback goodData).metadata.analysis_type = "FALLBACK" ∧
    (simulatedAnalysisFallback goodData).metadata.analysis_type ≠ "SIMULATION" :=
  ⟨rfl, rfl, by decide⟩

/-- C2 (amended): for every well-formed image input, if the classifier
backend is loaded but its predict call raises, `analyze` never surfaces
the failure as an error: it returns the fixed degenerate fallback result
whose metadata tags the analysis as FALLBACK (not the heuristic
SIMULATION estimate computed from channel statistics). -/
theorem claim_C2_thm (svc : MLServiceState) (image_data : ImageBytes)
    (dirichlet : List ℚ → Fin 5 → ℚ) (m : Tensor → Except String (List ℚ))
    (processed : Tensor) (e : String)
    (hload : svc.model_loaded = true) (hmodel : svc.model = some m)
    (hpre : preprocessImage image_data = Except.ok processed)
    (hfail : m processed = Except.error e) :
    analyzePlantImage svc image_data dirichlet
      = Except.ok (simulatedAnalysisFallback image_data) ∧
    (simulatedAnalysisFallback image_data).metadata.analysis_type = "FALLBACK" := by
  have hreal : realAnalysis processed image_data m = Except.error e := by
    simp only [realAnalysis, hfail]
  have hatt : analyzeAttempt svc image_data dirichlet = Except.error e := by
    simp only [analyzeAttempt, hpre, hload, hmodel, hreal]
  exact ⟨by simp only [analyzePlantImage, hatt], rfl⟩

/-- C2 witness: the amended statement applied to a concrete in-bounds
image and a backend whose predict call raises "boom". -/
theorem claim_C2_witness :
    svcBoom.model_loaded = true ∧ svcBoom.model = some boomPredict ∧
    preprocessImage goodData = Except.ok goodTensor ∧
    boomPredict goodTensor = Except.error "boom" ∧
    (analyzePlantImage svcBoom goodData drch0
        = Except.ok (simulatedAnalysisFallback goodData) ∧
      (simulatedAnalysisFallback goodData).metadata.analysis_type = "FALLBACK") :=
  ⟨rfl, rfl, rfl, rfl,
    claim_C2_thm svcBoom goodData drch0 boomPredict goodTensor "boom" rfl rfl rfl rfl⟩

/-- C4 counterexample: a model whose output row has 17 entries (one more
than the 16-label flattened taxonomy), peaking at index 16, makes the
real-analysis path return a normal result labelled "Inconnu" — no
`ModelTaxonomyMismatch` (or any other) error is raised. -/
theorem claim_C4_cex :
    (realAnalysis goodTensor goodData predict17).toOption.map PredictionResult.disease
      = some "Inconnu" := by decide

/-- C4 (amended): when the model's output row is non-empty and its
argmax index falls outside the flattened taxonomy (as happens when the
output cardinality exceeds the taxonomy's 16 labels), the real-analysis
path does not fail with `ModelTaxonomyMismatch` — no such error exists
in the code — but silently returns a result whose label is the
out-of-taxonomy string "Inconnu". -/
theorem claim_C4_thm (t : Tensor) (originalData : ImageBytes) (img : PILImage)
    (predict : Tensor → Except String (List ℚ)) (v : List ℚ)
    (hdec : originalData.decoded = some img)
    (hv : predict t = Except.ok v) (hne : v ≠ [])
    (hmm : getAllDiseasesFlat.length ≤ argmaxList v) :
    ∃ r, realAnalysis t originalData predict = Except.ok r ∧ r.disease = "Inconnu" := by
  obtain ⟨a, l, rfl⟩ := List.exists_cons_of_ne_nil hne
  have hif : (if argmaxList (a :: l) < getAllDiseasesFlat.length then
      getAllDiseasesFlat.getD (argmaxList (a :: l)) "Inconnu" else "Inconnu") = "Inconnu" :=
    if_neg (Nat.not_lt.mpr hmm)
  simp only [realAnalysis, hv, hdec, hif]
  exact ⟨_, rfl, rfl⟩

/-- C4 witness: the amended statement applied to the concrete 17-entry
output row peaking at index 16. -/
theorem claim_C4_witness :
    goodData.decoded = some testImage ∧
    predict17 goodTensor = Except.ok vec17 ∧ vec17 ≠ [] ∧
    getAllDiseasesFlat.length ≤ argmaxList vec17 ∧
    ∃ r, realAnalysis goodTensor goodData predict17 = Except.ok r ∧
      r.disease = "Inconnu" :=
  ⟨rfl, rfl, by decide, by decide,
    claim_C4_thm goodTensor goodData testImage predict17 vec17 rfl rfl (by decide) (by decide)⟩

/-- C7: for every input decoding to an image, `_preprocess_image` raises
the `InvalidImage` `ValueError` when either dimension exceeds 2048 px,
and otherwise — for every colour mode — returns the 224 x 224 x 3
normalized tensor (resampled bytes divided by 255) whose every entry
lies in [0,1], so the classifier backend never receives a
differently-shaped tensor. -/
theorem claim_C7_thm (image_data : ImageBytes) (img : PILImage)
    (hdec : image_data.decoded = some img) :
    ((MAX_IMAGE_SIZE < img.width ∨ MAX_IMAGE_SIZE < img.height) →
        preprocessImage image_data
          = Except.error "Image invalide: Image trop grande (max: 2048px)") ∧
      (img.width ≤ MAX_IMAGE_SIZE → img.height ≤ MAX_IMAGE_SIZE →
        preprocessImage image_data = Except.ok (normalizedOf img) ∧
          ∀ i j c, 0 ≤ normalizedOf img i j c ∧ normalizedOf img i j c ≤ 1) := by
  constructor
  · intro hbig
    simp only [preprocessImage, hdec]
    rw [if_pos hbig]
  · intro hw hh
    constructor
    · simp only [preprocessImage, hdec]
      rw [if_neg (not_or.mpr ⟨Nat.not_lt.mpr hw, Nat.not_lt.mpr hh⟩)]
      rfl
    · intro i j c
      exact byte_div_mem_unit _

/-- C7 witness: the concrete in-bounds RGB test image. -/
theorem claim_C7_witness :
    goodData.decoded = some testImage ∧
      ((MAX_IMAGE_SIZE < testImage.width ∨ MAX_IMAGE_SIZE < testImage.height) →
        preprocessImage goodData
          = Except.error "Image invalide: Image trop grande (max: 2048px)") ∧
      (testImage.width ≤ MAX_IMAGE_SIZE → testImage.height ≤ MAX_IMAGE_SIZE →
        preprocessImage goodData = Except.ok (normalizedOf testImage) ∧
          ∀ i j c, 0 ≤ normalizedOf testImage i j c ∧ normalizedOf testImage i j c ≤ 1) :=
  ⟨rfl, claim_C7_thm goodData testImage rfl⟩

/-- C8: every `PredictionResult` the orchestrator returns — on any
input, any backend configuration, granted that a loaded model's output
entries and the Dirichlet samples lie in [0,1] — has confidence in
[0,1], and its recommendations field resolves to a declared
`RECOMMENDATIONS` record or the generic low-urgency fallback record
(never absent). -/
theorem claim_C8 (svc : MLServiceState) (image_data : ImageBytes)
    (dirichlet : List ℚ → Fin 5 → ℚ) (r : PredictionResult)
    (hm : ∀ m, svc.model = some m → ∀ t v, m t = Except.ok v →
      ∀ x ∈ v, 0 ≤ x ∧ x ≤ 1)
    (hd : ∀ ps i, 0 ≤ dirichlet ps i ∧ dirichlet ps i ≤ 1)
    (hr : analyzePlantImage svc image_data dirichlet = Except.ok r) :
    (0 ≤ r.confidence ∧ r.confidence ≤ 1) ∧
      (r.recommendations ∈ RECOMMENDATIONS.map Prod.snd ∨
        r.recommendations = genericReco) := by
  simp only [analyzePlantImage] at hr
  cases hatt : analyzeAttempt svc image_data dirichlet with
  | error e =>
    rw [hatt] at hr
    simp only [Except.ok.injEq] at hr
    subst hr
    refine ⟨⟨by norm_num [simulatedAnalysisFallback], by norm_num [simulatedAnalysisFallback]⟩, ?_⟩
    simpa [simulatedAnalysisFallback] using getRecommendations_mem "sain"
  | ok r' =>
    rw [hatt] at hr
    simp only [Except.ok.injEq] at hr
    subst hr
    simp only [analyzeAttempt] at hatt
    cases hpre : preprocessImage image_data with
    | error e =>
      rw [hpre] at hatt
      simp at hatt
    | ok processed =>
      rw [hpre] at hatt
      dsimp only at hatt
      cases hml : svc.model_loaded with
      | false =>
        rw [hml] at hatt
        dsimp only at hatt
        simp only [Except.ok.injEq] at hatt
        subst hatt
        exact sim_result_bounds processed dirichlet hd
      | true =>
        rw [hml] at hatt
        cases hmo : svc.model with
        | none =>
          rw [hmo] at hatt
          dsimp only at hatt
          simp only [Except.ok.injEq] at hatt
          subst hatt
          exact sim_result_bounds processed dirichlet hd
        | some m =>
          rw [hmo] at hatt
          dsimp only at hatt
          simp only [realAnalysis] at hatt
          cases hpd : m processed with
          | error e =>
            rw [hpd] at hatt
            simp at hatt
          | ok v =>
            rw [hpd] at hatt
            cases v with
            | nil => simp at hatt
            | cons a l =>
              dsimp only at hatt
              cases hdec : image_data.decoded with
              | none =>
                rw [hdec] at hatt
                simp at hatt
              | some img =>
                rw [hdec] at hatt
                simp only [Except.ok.injEq] at hatt
                subst hatt
                have hb := hm m hmo processed (a :: l) hpd
                constructor
                · dsimp only
                  rcases getD_mem_or_eq (a :: l) (argmaxList (a :: l)) 0 with h | h
                  · exact hb _ h
                  · rw [h]
                    exact ⟨le_refl 0, by norm_num⟩
                · exact getRecommendations_mem _

/-- C8 witness: the theorem applied to concrete undecodable bytes with
the backend unavailable and the uniform Dirichlet oracle. -/
theorem claim_C8_witness :
    analyzePlantImage svcSim badData drch0
        = Except.ok (simulatedAnalysisFallback badData) ∧
      (0 ≤ (simulatedAnalysisFallback badData).confidence ∧
        (simulatedAnalysisFallback badData).confidence ≤ 1) ∧
      ((simulatedAnalysisFallback badData).recommendations ∈
          RECOMMENDATIONS.map Prod.snd ∨
        (simulatedAnalysisFallback badData).recommendations = genericReco) :=
  ⟨rfl,
    claim_C8 svcSim badData drch0 (simulatedAnalysisFallback badData)
      (fun m h => Option.noConfusion h)
      (fun ps i => ⟨by norm_num [drch0], by norm_num [drch0]⟩) rfl⟩

end PlantDoctor
